import Mathlib

/-!
Verification of the URL-reindexing batch script (`main.py`).

The script submits every URL of an input CSV table to two search-engine
APIs ("Primary" = Yandex webmaster API, "Secondary" = Google indexing API)
and records one result row per submitted URL.

The embedding below is a shallow one: each Python function becomes a Lean
function over an explicit environment describing the outside world (the
HTTP responses the `requests` library would deliver, the token the Google
credential object would produce, the file system facts the script checks).
Python exceptions are modelled by `Except PyExc`; a `try/except` block
becomes a `match` on the `Except` value produced by the block's body.
Parsed JSON response bodies are modelled by the `Json` type.
-/

/-- Parsed JSON value, the model of the result of `response.json()`.
Objects are association lists with distinct keys (Python dicts). -/
inductive Json where
  | null
  | bool (b : Bool)
  | num (n : Int)
  | str (s : String)
  | arr (xs : List Json)
  | obj (fields : List (String × Json))

/-- Escape of one character inside a JSON string literal, as `json.dumps`
does for the quote and backslash characters (escaping of control and
non-ASCII characters is not modelled). -/
def jsonEscapeChar (c : Char) : String :=
  if c = '"' then "\\\"" else if c = '\\' then "\\\\" else String.singleton c

/-- Escape of a whole string inside a JSON string literal. -/
def jsonEscape (s : String) : String :=
  String.join (s.toList.map jsonEscapeChar)

mutual

/-- Model of Python `json.dumps` on a parsed JSON value (default
separators; escaping of control and non-ASCII characters not modelled). -/
def Json.dumps : Json → String
  | .null => "null"
  | .bool true => "true"
  | .bool false => "false"
  | .num n => toString n
  | .str s => "\"" ++ jsonEscape s ++ "\""
  | .arr xs => "[" ++ Json.dumpsArr xs ++ "]"
  | .obj fs => "\x7b" ++ Json.dumpsObj fs ++ "\x7d"

/-- `json.dumps` rendering of the elements of a JSON array. -/
def Json.dumpsArr : List Json → String
  | [] => ""
  | [j] => Json.dumps j
  | j :: rest => Json.dumps j ++ ", " ++ Json.dumpsArr rest

/-- `json.dumps` rendering of the fields of a JSON object. -/
def Json.dumpsObj : List (String × Json) → String
  | [] => ""
  | [(k, v)] => "\"" ++ jsonEscape k ++ "\": " ++ Json.dumps v
  | (k, v) :: rest =>
      "\"" ++ jsonEscape k ++ "\": " ++ Json.dumps v ++ ", " ++ Json.dumpsObj rest

end

mutual

/-- Model of Python `repr` on a parsed JSON value (the rendering `str`
uses for elements of containers). -/
def Json.pyrepr : Json → String
  | .null => "None"
  | .bool true => "True"
  | .bool false => "False"
  | .num n => toString n
  | .str s => "\x27" ++ s ++ "\x27"
  | .arr xs => "[" ++ Json.pyreprArr xs ++ "]"
  | .obj fs => "\x7b" ++ Json.pyreprObj fs ++ "\x7d"

/-- `repr` rendering of the elements of a list. -/
def Json.pyreprArr : List Json → String
  | [] => ""
  | [j] => Json.pyrepr j
  | j :: rest => Json.pyrepr j ++ ", " ++ Json.pyreprArr rest

/-- `repr` rendering of the items of a dict. -/
def Json.pyreprObj : List (String × Json) → String
  | [] => ""
  | [(k, v)] => "\x27" ++ k ++ "\x27: " ++ Json.pyrepr v
  | (k, v) :: rest =>
      "\x27" ++ k ++ "\x27: " ++ Json.pyrepr v ++ ", " ++ Json.pyreprObj rest

end

/-- Model of Python `str()` on a parsed JSON value, as used by f-string
interpolation: a string renders as itself, every other value as its
`repr`. -/
def Json.pystr : Json → String
  | .str s => s
  | j => Json.pyrepr j

/-- Python `==` between a parsed JSON value and a Python string: true
exactly for an equal string (no other JSON value equals a `str`). -/
def Json.eqStr (j : Json) (s : String) : Bool :=
  match j with
  | .str t => t == s
  | _ => false

/-- Substring test, the meaning of Python `needle in haystack` on strings. -/
def isSubstringOf (needle hay : String) : Bool :=
  let n := needle.toList
  let h := hay.toList
  (List.range (h.length + 1)).any (fun i => ((h.drop i).take n.length) == n)

/-- Model of a raised Python exception, tagged with the class the
`except` clauses of the script distinguish, carrying `str(e)`. -/
inductive PyExc where
  | httpError (txt : String)
  | jsonError (txt : String)
  | typeError (txt : String)
  | keyError (txt : String)
  | valueError (txt : String)
  | other (txt : String)
deriving DecidableEq

/-- `str(e)` of a modelled exception. -/
def PyExc.text : PyExc → String
  | .httpError t | .jsonError t | .typeError t | .keyError t | .valueError t | .other t => t

/-- Python `key in value` (membership test), raising `TypeError` on
non-container values as Python does. -/
def pyIn (k : String) (v : Json) : Except PyExc Bool :=
  match v with
  | .obj fs => .ok ((fs.lookup k).isSome)
  | .str s => .ok (isSubstringOf k s)
  | .arr xs => .ok (xs.any (fun x => x.eqStr k))
  | _ => .error (.typeError "argument is not iterable")

/-- Python `value[k]` for a string key, raising `TypeError`/`KeyError` as
Python does. -/
def pySubscript (v : Json) (k : String) : Except PyExc Json :=
  match v with
  | .obj fs =>
    match fs.lookup k with
    | some j => .ok j
    | none => .error (.keyError k)
  | .str _ => .error (.typeError "string indices must be integers")
  | .arr _ => .error (.typeError "list indices must be integers or slices, not str")
  | _ => .error (.typeError "object is not subscriptable")

deriving instance DecidableEq for Except

/-- Model of one HTTP exchange as the `requests` library presents it:
whether `raise_for_status()` raises (and with what text), and what
`response.json()` yields (a parsed value, or the text of the parse
error it raises). -/
structure HttpResp where
  statusError : Option String
  jsonBody : Except String Json

/-- The outcome pair `(status, errorDetail)` the submitters return. -/
abbrev Outcome := String × Option String

/-- Convenience: whether an `Except` computation returned normally. -/
def exceptOk {ε α : Type} : Except ε α → Bool
  | .ok _ => true
  | .error _ => false

/-- The outcome carried by a normally-returning submitter call (the
`.error` branch is never used at the call sites, which all require a
proof of normal return; it mirrors the catch-all `except` shape). -/
def outcomeOf (x : Except PyExc Outcome) : Outcome :=
  match x with
  | .ok r => r
  | .error e => ("неуспешно", some e.text)

/-- Environment of one `send_reindex_yandex` call: the result of
`requests.post` for this request — either a raised exception, or a
response object. The `user_id`, `host_id` and `url` arguments of the
Python function only select the request target, which this environment
already stands for, and do not influence the classification. -/
structure YandexEnv where
  post : Except PyExc HttpResp

/-- The `try` block body of `send_reindex_yandex` (main.py lines 115-138):
POST, `raise_for_status`, parse the body, then classify: an `error` field
wins over a `task_id` field, a `task_id` field yields plain success,
anything else success-without-confirmation. -/
def yandexTryBody (env : YandexEnv) : Except PyExc Outcome :=
  match env.post with
  | .error e => .error e
  | .ok resp =>
    match resp.statusError with
    | some t => .error (.httpError t)
    | none =>
      match resp.jsonBody with
      | .error t => .error (.jsonError t)
      | .ok data =>
        match pyIn "error" data with
        | .error e => .error e
        | .ok true =>
          match pySubscript data "error" with
          | .error e => .error e
          | .ok v => .ok ("неуспешно", some ("Ошибка API: " ++ v.pystr))
        | .ok false =>
          match pyIn "task_id" data with
          | .error e => .error e
          | .ok true => .ok ("успешно", none)
          | .ok false => .ok ("успешно (без task_id)", none)

/-- The `except requests.exceptions.HTTPError` handler of
`send_reindex_yandex` (main.py lines 140-150): try to re-parse the
response body and return it serialized with `json.dumps`; on any failure
fall back to the exception text. -/
def yandexHttpHandler (env : YandexEnv) (e : PyExc) : Outcome :=
  match env.post with
  | .ok resp =>
    match resp.jsonBody with
    | .ok j => ("неуспешно", some (Json.dumps j))
    | .error _ => ("неуспешно", some e.text)
  | .error _ => ("неуспешно", some e.text)

/-- `send_reindex_yandex` (main.py lines 109-155): the `try` body with its
two handlers — `except HTTPError` re-serializes the error body, the
catch-all `except Exception` returns the exception text. -/
def send_reindex_yandex (env : YandexEnv) : Except PyExc Outcome :=
  match yandexTryBody env with
  | .ok r => .ok r
  | .error (.httpError t) => .ok (yandexHttpHandler env (.httpError t))
  | .error e => .ok ("неуспешно", some e.text)

/-- Environment of one `publish_url_google` call: the token the
credential refresh would yield (or the exception it raises), and the
result of `requests.post` for this request. The `url` argument of the
Python function only fills the request payload and does not influence
the classification. -/
structure GoogleEnv where
  token : Except PyExc String
  post : Except PyExc HttpResp

/-- `get_access_token` (main.py lines 62-69): refresh the Google
credentials and return the bearer token; a refresh failure is logged and
re-raised, so the exception propagates to the caller. -/
def get_access_token (env : GoogleEnv) : Except PyExc String :=
  env.token

/-- The `try` block body of `publish_url_google` (main.py lines 171-194):
POST, `raise_for_status`, parse the body, then classify by the
`urlNotificationMetadata` envelope and its `latestUpdate.type` field. -/
def googleTryBody (action : String) (env : GoogleEnv) : Except PyExc Outcome :=
  match env.post with
  | .error e => .error e
  | .ok resp =>
    match resp.statusError with
    | some t => .error (.httpError t)
    | none =>
      match resp.jsonBody with
      | .error t => .error (.jsonError t)
      | .ok data =>
        match pyIn "urlNotificationMetadata" data with
        | .error e => .error e
        | .ok false => .ok ("неуспешно", some "Неожиданный формат ответа от Google API")
        | .ok true =>
          match pySubscript data "urlNotificationMetadata" with
          | .error e => .error e
          | .ok metadata =>
            match pyIn "latestUpdate" metadata with
            | .error e => .error e
            | .ok false => .ok ("успешно", none)
            | .ok true =>
              match pySubscript metadata "latestUpdate" with
              | .error e => .error e
              | .ok lu =>
                match pyIn "type" lu with
                | .error e => .error e
                | .ok false => .ok ("успешно", none)
                | .ok true =>
                  match pySubscript lu "type" with
                  | .error e => .error e
                  | .ok tv =>
                    if tv.eqStr action then .ok ("успешно", none)
                    else .ok ("неуспешно",
                      some ("Ожидался тип " ++ action ++ ", получен " ++ tv.pystr))

/-- The `except requests.exceptions.HTTPError` handler of
`publish_url_google` (main.py lines 196-206), same shape as the Yandex
one. -/
def googleHttpHandler (env : GoogleEnv) (e : PyExc) : Outcome :=
  match env.post with
  | .ok resp =>
    match resp.jsonBody with
    | .ok j => ("неуспешно", some (Json.dumps j))
    | .error _ => ("неуспешно", some e.text)
  | .error _ => ("неуспешно", some e.text)

/-- `publish_url_google` (main.py lines 158-211). Note the faithful
placement of `get_access_token`: it is called while building the request
headers, before the `try` block, so a token-acquisition failure
propagates out of the function instead of becoming an outcome. -/
def publish_url_google (action : String) (env : GoogleEnv) : Except PyExc Outcome :=
  match get_access_token env with
  | .error e => .error e
  | .ok _tok =>
    match googleTryBody action env with
    | .ok r => .ok r
    | .error (.httpError t) => .ok (googleHttpHandler env (.httpError t))
    | .error e => .ok ("неуспешно", some e.text)

/-- Model of Python `str.strip()`: drop whitespace from both ends. -/
def pyTrim (s : String) : String :=
  String.mk (((s.toList.dropWhile Char.isWhitespace).reverse.dropWhile Char.isWhitespace).reverse)

/-- True for the characters allowed after the first one of a URL scheme. -/
def isSchemeTailChar (c : Char) : Bool :=
  c.isAlphanum || c == '+' || c == '-' || c == '.'

/-- Scheme split of `urllib.parse.urlparse`: if the string starts with a
valid scheme followed by a colon, yield the lowercased scheme and the
remainder after the colon. -/
def splitSchemeChars (cs : List Char) : Option (List Char × List Char) :=
  let pre := cs.takeWhile (fun c => c != ':')
  match cs.drop pre.length with
  | ':' :: after =>
    match pre with
    | [] => none
    | c0 :: crest =>
      if c0.isAlpha && crest.all isSchemeTailChar then
        some (pre.map Char.toLower, after)
      else none
  | _ => none

/-- Network-authority extraction of `urlparse`: present only when the
(remaining) string starts with `//`, running up to the next `/`, `?` or
`#`. -/
def netlocOfRest (rest : List Char) : String :=
  if rest.take 2 == ['/', '/'] then
    String.mk ((rest.drop 2).takeWhile (fun c => c != '/' && c != '?' && c != '#'))
  else ""

/-- The `(scheme, netloc)` pair of `urllib.parse.urlparse`, the only two
components `build_yandex_host_id` reads. -/
def urlparse_scheme_netloc (u : String) : String × String :=
  match splitSchemeChars u.toList with
  | some (sch, after) => (String.mk sch, netlocOfRest after)
  | none => ("", netlocOfRest u.toList)

/-- `build_yandex_host_id` (main.py lines 72-88): parse the configured
site URL; an empty scheme or netloc raises `ValueError` (re-raised by the
handler, hence `Except`); the port is fixed by the scheme — 443 for
https, 80 otherwise. -/
def build_yandex_host_id (site_url : String) : Except PyExc String :=
  let parsed := urlparse_scheme_netloc site_url
  if parsed.1 = "" ∨ parsed.2 = "" then
    .error (.valueError ("Некорректный URL сайта: " ++ site_url))
  else
    .ok (parsed.1 ++ ":" ++ parsed.2 ++ ":" ++ (if parsed.1 = "https" then "443" else "80"))

/-- Environment of `get_yandex_user_id`: the result of the identity GET
request. -/
structure UserIdEnv where
  get : Except PyExc HttpResp

/-- `get_yandex_user_id` (main.py lines 91-106): GET the identity
endpoint, `raise_for_status`, parse, require a `user_id` field (raising
`ValueError` otherwise) and return its value. Its `except` clause only
re-raises, so every failure propagates. -/
def get_yandex_user_id (env : UserIdEnv) : Except PyExc Json :=
  match env.get with
  | .error e => .error e
  | .ok resp =>
    match resp.statusError with
    | some t => .error (.httpError t)
    | none =>
      match resp.jsonBody with
      | .error t => .error (.jsonError t)
      | .ok data =>
        match pyIn "user_id" data with
        | .error e => .error e
        | .ok false => .error (.valueError ("В ответе API отсутствует user_id: " ++ data.pystr))
        | .ok true => pySubscript data "user_id"

/-- Header-name normalization of `process_urls` (main.py line 240):
`f.strip().replace(chr(0xFEFF), "")` — trim whitespace, then delete every
byte-order-mark character. -/
def stripName (s : String) : String :=
  String.mk ((pyTrim s).toList.filter (fun c => c != '\uFEFF'))

/-- The input CSV table as `csv.DictReader` presents it to the loop: the
raw header names, and for each data row the value of its `URL` column
(the only cell the script reads; rows are assumed to have the same arity
as the header, as `DictReader` gives every such row a string `URL`
value). -/
structure CsvInput where
  fieldnames : List String
  rows : List String

/-- One observable step of a `process_urls` run, in execution order. -/
inductive Event where
  | resolveHostId
  | resolveUserId
  | checkInputExists
  | openInput
  | yandexCall (url : String)
  | googleCall (url : String)
  | writeOutput
deriving DecidableEq

/-- One row of the output table (main.py lines 264-270). -/
structure ResultRow where
  url : String
  yandexStatus : String
  yandexError : String
  googleStatus : String
  googleError : String
deriving DecidableEq

/-- Environment of a whole `process_urls` run: the configured site URL,
the identity-endpoint exchange, one HTTP environment per submitted URL
for each engine, whether the input file exists, and the parsed input
table. -/
structure ProcEnv where
  siteUrl : String
  userIdEnv : UserIdEnv
  yandexOf : String → YandexEnv
  googleOf : String → GoogleEnv
  inputExists : Bool
  input : CsvInput

/-- Result of a `process_urls` run: the ordered trace of observable
steps, the rows written to the output file (`none` when the run ended
without writing it), and the two counters the script reports on a
completed run. -/
structure RunResult where
  trace : List Event
  outputWritten : Option (List ResultRow)
  totalRows : Nat
  processedRows : Nat

/-- The per-URL loop of `process_urls` (main.py lines 250-276): count
every row, skip rows whose trimmed URL is empty, otherwise call the
Yandex submitter then the Google submitter and append a result row.
A raised exception aborts the loop (it is caught by the `except` at
line 288, losing the gathered rows); the returned triple is
(result rows, total rows seen, processed rows). -/
def runLoop (yOf : String → YandexEnv) (gOf : String → GoogleEnv) :
    List String → List Event × Except PyExc (List ResultRow × Nat × Nat)
  | [] => ([], .ok ([], 0, 0))
  | raw :: rest =>
    let url := pyTrim raw
    if url = "" then
      match runLoop yOf gOf rest with
      | (tr, .ok (rows, total, processed)) => (tr, .ok (rows, total + 1, processed))
      | (tr, .error e) => (tr, .error e)
    else
      match send_reindex_yandex (yOf url) with
      | .error e => ([.yandexCall url], .error e)
      | .ok oy =>
        match publish_url_google "URL_UPDATED" (gOf url) with
        | .error e => ([.yandexCall url, .googleCall url], .error e)
        | .ok og =>
          match runLoop yOf gOf rest with
          | (tr, .ok (rows, total, processed)) =>
            (.yandexCall url :: .googleCall url :: tr,
             .ok (⟨url, oy.1, oy.2.getD "", og.1, og.2.getD ""⟩ :: rows, total + 1, processed + 1))
          | (tr, .error e) =>
            (.yandexCall url :: .googleCall url :: tr, .error e)

/-- `process_urls` (main.py lines 214-289), phase by phase in source
order: derive the host id, fetch the user id (both inside one `try`
whose failure aborts the run), check that the input file exists, check
that the stripped header names contain `URL`, run the per-URL loop, and
finally overwrite the output file with the gathered rows. An exception
escaping the loop is caught at line 288: the run ends with no output
written. -/
def process_urls (env : ProcEnv) : RunResult :=
  match build_yandex_host_id env.siteUrl with
  | .error _ => ⟨[.resolveHostId], none, 0, 0⟩
  | .ok _hostId =>
    match get_yandex_user_id env.userIdEnv with
    | .error _ => ⟨[.resolveHostId, .resolveUserId], none, 0, 0⟩
    | .ok _userId =>
      match env.inputExists with
      | false =>
        ⟨[.resolveHostId, .resolveUserId, .checkInputExists], none, 0, 0⟩
      | true =>
        match (env.input.fieldnames.map stripName).contains "URL" with
        | false =>
          ⟨[.resolveHostId, .resolveUserId, .checkInputExists, .openInput], none, 0, 0⟩
        | true =>
          match runLoop env.yandexOf env.googleOf env.input.rows with
          | (tl, .error _) =>
            ⟨[.resolveHostId, .resolveUserId, .checkInputExists, .openInput] ++ tl, none, 0, 0⟩
          | (tl, .ok (rows, total, processed)) =>
            ⟨[.resolveHostId, .resolveUserId, .checkInputExists, .openInput] ++ tl ++ [.writeOutput],
             some rows, total, processed⟩

/-- The per-URL events a row of the input contributes to the trace. -/
def urlEvents (raw : String) : List Event :=
  if pyTrim raw = "" then [] else [.yandexCall (pyTrim raw), .googleCall (pyTrim raw)]

/-- The result row the loop builds for a processed URL, phrased through
the submitter models. -/
def expectedRow (yOf : String → YandexEnv) (gOf : String → GoogleEnv) (u : String) : ResultRow :=
  let oy := outcomeOf (send_reindex_yandex (yOf u))
  let og := outcomeOf (publish_url_google "URL_UPDATED" (gOf u))
  ⟨u, oy.1, oy.2.getD "", og.1, og.2.getD ""⟩

/-- Content of the output file after a run, given its content before:
the script overwrites it only in the final write phase. -/
def outputFileAfter (prev : Option (List ResultRow)) (r : RunResult) :
    Option (List ResultRow) :=
  match r.outputWritten with
  | some rows => some rows
  | none => prev

/-- All exception texts an HTTP exchange can surface are non-empty. -/
def HttpResp.textsNonempty (r : HttpResp) : Prop :=
  (∀ t, r.statusError = some t → t ≠ "") ∧ (∀ t, r.jsonBody = .error t → t ≠ "")

/-- All exception texts a Yandex submission environment can surface are
non-empty. -/
def YandexEnv.textsNonempty (env : YandexEnv) : Prop :=
  (∀ e, env.post = .error e → e.text ≠ "") ∧ ∀ r, env.post = .ok r → r.textsNonempty

/-- All exception texts a Google submission environment can surface are
non-empty. -/
def GoogleEnv.textsNonempty (env : GoogleEnv) : Prop :=
  (∀ e, env.post = .error e → e.text ≠ "") ∧ ∀ r, env.post = .ok r → r.textsNonempty

/-- Sample identity exchange: HTTP 200 with a `user_id` field. -/
def userIdEnvOk : UserIdEnv := ⟨.ok ⟨none, .ok (.obj [("user_id", .num 1)])⟩⟩

/-- Sample Yandex exchange: HTTP 200 with a `task_id` field. -/
def yandexEnvTask : YandexEnv := ⟨.ok ⟨none, .ok (.obj [("task_id", .str "t1")])⟩⟩

/-- Sample Yandex exchange: HTTP 500 with an unparseable body. -/
def yandexEnvHttp500 : YandexEnv := ⟨.ok ⟨some "500 Server Error", .error "not json"⟩⟩

/-- Sample Google exchange: token acquired, HTTP 200, envelope whose
latest update type matches the requested action. -/
def googleEnvMatch : GoogleEnv :=
  ⟨.ok "tok", .ok ⟨none, .ok (.obj [("urlNotificationMetadata",
     .obj [("latestUpdate", .obj [("type", .str "URL_UPDATED")])])])⟩⟩

/-- Sample Google exchange where the credential refresh raises. -/
def googleEnvTokenFail : GoogleEnv :=
  ⟨.error (.other "refresh failed"), .ok ⟨none, .ok (.obj [])⟩⟩

/-- Google environments for a run where only the first URL's token
acquisition fails. -/
def googleOfTokenFail (u : String) : GoogleEnv :=
  if u == "https://a.com/" then googleEnvTokenFail else googleEnvMatch

/-- Run environment of end-to-end scenario 1: three input rows, the
second blank. -/
def envScenario1 : ProcEnv :=
  ⟨"https://example.com", userIdEnvOk, fun _ => yandexEnvTask, fun _ => googleEnvMatch, true,
   ⟨["URL"], ["https://a.com/", "   ", "https://b.com/"]⟩⟩

/-- Run environment of end-to-end scenario 2: the Primary submission hits
HTTP 500, the Secondary succeeds. -/
def envScenario2 : ProcEnv :=
  ⟨"https://example.com", userIdEnvOk, fun _ => yandexEnvHttp500, fun _ => googleEnvMatch, true,
   ⟨["URL"], ["https://a.com/"]⟩⟩

/-- Run environment where the first URL's Google token acquisition
fails. -/
def envTokenFail : ProcEnv :=
  ⟨"https://example.com", userIdEnvOk, fun _ => yandexEnvTask, googleOfTokenFail, true,
   ⟨["URL"], ["https://a.com/", "https://b.com/"]⟩⟩

/-- Run environment with a missing input file (identity resolution
succeeds). -/
def envMissingInput : ProcEnv :=
  ⟨"https://example.com", userIdEnvOk, fun _ => yandexEnvTask, fun _ => googleEnvMatch, false,
   ⟨["URL"], ["https://a.com/"]⟩⟩

/-- Run environment whose input table has no `URL` column (headers carry
BOM and whitespace that stripping does not turn into `URL`). -/
def envNoUrlColumn : ProcEnv :=
  ⟨"https://example.com", userIdEnvOk, fun _ => yandexEnvTask, fun _ => googleEnvMatch, true,
   ⟨["\uFEFF Ссылка", "Url "], ["https://a.com/"]⟩⟩

/-- A pre-existing output file content, for the frame condition of the
missing-column abort. -/
def prevOutput : Option (List ResultRow) := some [⟨"old", "x", "", "y", ""⟩]

lemma toDigitsCore_length_le (b : Nat) :
    ∀ (fuel n : Nat) (ds : List Char), ds.length ≤ (Nat.toDigitsCore b fuel n ds).length := by
  intro fuel
  induction fuel with
  | zero => intro n ds; simp [Nat.toDigitsCore]
  | succ fuel ih =>
    intro n ds
    unfold Nat.toDigitsCore
    by_cases h : n / b = 0
    · simp [h]
    · simp only [h, if_false]
      calc ds.length ≤ (Nat.digitChar (n % b) :: ds).length := by simp
        _ ≤ _ := ih (n / b) (Nat.digitChar (n % b) :: ds)

lemma asString_length (l : List Char) : (List.asString l).length = l.length := rfl

lemma natRepr_length_pos (n : Nat) : 0 < (Nat.repr n).length := by
  unfold Nat.repr
  rw [asString_length]
  unfold Nat.toDigits
  unfold Nat.toDigitsCore
  by_cases h : n / 10 = 0
  · simp [h]
  · simp only [h, if_false]
    have := toDigitsCore_length_le 10 n (n / 10) [Nat.digitChar (n % 10)]
    simp at this
    omega

lemma intToString_length_pos (n : Int) : 0 < (toString n).length := by
  cases n with
  | ofNat m => simpa [toString, Int.repr] using natRepr_length_pos m
  | negSucc m =>
    have he : toString (Int.negSucc m) = "-" ++ Nat.repr (m + 1) := rfl
    rw [he, String.length_append]
    have := natRepr_length_pos (m + 1)
    omega

lemma length_append_pos_left {a : String} (b : String) (h : 0 < a.length) :
    0 < (a ++ b).length := by
  rw [String.length_append]; omega

lemma ne_empty_of_length_pos {a : String} (h : 0 < a.length) : a ≠ "" := by
  intro hc
  rw [hc] at h
  exact Nat.lt_irrefl 0 h

lemma dumps_length_pos (j : Json) : 0 < (Json.dumps j).length := by
  cases j with
  | null => decide
  | bool b => cases b <;> decide
  | num n => simpa [Json.dumps] using intToString_length_pos n
  | str s =>
    show 0 < ("\"" ++ jsonEscape s ++ "\"").length
    exact length_append_pos_left _ (length_append_pos_left _ (by decide))
  | arr xs =>
    show 0 < ("[" ++ Json.dumpsArr xs ++ "]").length
    exact length_append_pos_left _ (length_append_pos_left _ (by decide))
  | obj fs =>
    show 0 < ("\x7b" ++ Json.dumpsObj fs ++ "\x7d").length
    exact length_append_pos_left _ (length_append_pos_left _ (by decide))

lemma dumps_ne_empty (j : Json) : Json.dumps j ≠ "" :=
  ne_empty_of_length_pos (dumps_length_pos j)

lemma sendYandexOk (env : YandexEnv) : ∃ r, send_reindex_yandex env = .ok r := by
  unfold send_reindex_yandex
  cases h : yandexTryBody env with
  | ok r => exact ⟨r, rfl⟩
  | error e => cases e <;> exact ⟨_, rfl⟩

lemma yandexShape (env : YandexEnv) (r : Outcome) (h : send_reindex_yandex env = .ok r) :
    r = ("успешно", none) ∨ r = ("успешно (без task_id)", none) ∨
      (r.1 = "неуспешно" ∧ ∃ s, r.2 = some s ∧ (env.textsNonempty → s ≠ "")) := by
  obtain ⟨post⟩ := env
  cases post with
  | error e =>
    cases e <;>
    · simp [send_reindex_yandex, yandexTryBody, yandexHttpHandler, PyExc.text] at h
      refine Or.inr (Or.inr ⟨by rw [← h], _, by rw [← h], fun hne => ?_⟩)
      exact hne.1 _ rfl
  | ok resp =>
    obtain ⟨stErr, body⟩ := resp
    cases stErr with
    | some t =>
      cases body with
      | ok j =>
        simp [send_reindex_yandex, yandexTryBody, yandexHttpHandler] at h
        exact Or.inr (Or.inr ⟨by rw [← h], _, by rw [← h], fun _ => dumps_ne_empty j⟩)
      | error t2 =>
        simp [send_reindex_yandex, yandexTryBody, yandexHttpHandler, PyExc.text] at h
        refine Or.inr (Or.inr ⟨by rw [← h], _, by rw [← h], fun hne => ?_⟩)
        exact (hne.2 _ rfl).1 _ rfl
    | none =>
      cases body with
      | error t =>
        simp [send_reindex_yandex, yandexTryBody, PyExc.text] at h
        refine Or.inr (Or.inr ⟨by rw [← h], _, by rw [← h], fun hne => ?_⟩)
        exact (hne.2 _ rfl).2 _ rfl
      | ok data =>
        cases data with
        | obj fs =>
          cases hl : fs.lookup "error" with
          | some v =>
            simp [send_reindex_yandex, yandexTryBody, pyIn, pySubscript, hl] at h
            refine Or.inr (Or.inr ⟨by rw [← h], _, by rw [← h], fun _ => ?_⟩)
            exact ne_empty_of_length_pos (length_append_pos_left _ (by decide))
          | none =>
            cases hl2 : fs.lookup "task_id" with
            | some v2 =>
              simp [send_reindex_yandex, yandexTryBody, pyIn, pySubscript, hl, hl2] at h
              exact Or.inl h.symm
            | none =>
              simp [send_reindex_yandex, yandexTryBody, pyIn, pySubscript, hl, hl2] at h
              exact Or.inr (Or.inl h.symm)
        | str s =>
          by_cases hs : isSubstringOf "error" s
          · simp [send_reindex_yandex, yandexTryBody, pyIn, pySubscript, hs, PyExc.text] at h
            exact Or.inr (Or.inr ⟨by rw [← h], _, by rw [← h], fun _ => by decide⟩)
          · by_cases ht : isSubstringOf "task_id" s
            · simp [send_reindex_yandex, yandexTryBody, pyIn, hs, ht] at h
              exact Or.inl h.symm
            · simp [send_reindex_yandex, yandexTryBody, pyIn, hs, ht] at h
              exact Or.inr (Or.inl h.symm)
        | arr xs =>
          by_cases hs : xs.any (fun x => x.eqStr "error")
          · simp [send_reindex_yandex, yandexTryBody, pyIn, pySubscript, hs, PyExc.text] at h
            exact Or.inr (Or.inr ⟨by rw [← h], _, by rw [← h], fun _ => by decide⟩)
          · by_cases ht : xs.any (fun x => x.eqStr "task_id")
            · simp [send_reindex_yandex, yandexTryBody, pyIn, hs, ht] at h
              exact Or.inl h.symm
            · simp [send_reindex_yandex, yandexTryBody, pyIn, hs, ht] at h
              exact Or.inr (Or.inl h.symm)
        | null =>
          simp [send_reindex_yandex, yandexTryBody, pyIn, PyExc.text] at h
          exact Or.inr (Or.inr ⟨by rw [← h], _, by rw [← h], fun _ => by decide⟩)
        | bool b =>
          simp [send_reindex_yandex, yandexTryBody, pyIn, PyExc.text] at h
          exact Or.inr (Or.inr ⟨by rw [← h], _, by rw [← h], fun _ => by decide⟩)
        | num n =>
          simp [send_reindex_yandex, yandexTryBody, pyIn, PyExc.text] at h
          exact Or.inr (Or.inr ⟨by rw [← h], _, by rw [← h], fun _ => by decide⟩)

lemma publishTokenError (action : String) (env : GoogleEnv) (e : PyExc)
    (h : env.token = .error e) : publish_url_google action env = .error e := by
  simp [publish_url_google, get_access_token, h]

lemma publishOkOfToken (action : String) (env : GoogleEnv) (tok : String)
    (h : env.token = .ok tok) : ∃ r, publish_url_google action env = .ok r := by
  unfold publish_url_google get_access_token
  rw [h]
  cases hb : googleTryBody action env with
  | ok r => exact ⟨r, rfl⟩
  | error e => cases e <;> exact ⟨_, rfl⟩

lemma googleShape (action : String) (env : GoogleEnv) (r : Outcome)
    (h : publish_url_google action env = .ok r) :
    r = ("успешно", none) ∨
      (r.1 = "неуспешно" ∧ ∃ s, r.2 = some s ∧ (env.textsNonempty → s ≠ "")) := by
  obtain ⟨tok, post⟩ := env
  cases tok with
  | error e => simp [publish_url_google, get_access_token] at h
  | ok tk =>
  cases post with
  | error e =>
    cases e <;>
    · simp [publish_url_google, get_access_token, googleTryBody, googleHttpHandler, PyExc.text] at h
      refine Or.inr ⟨by rw [← h], _, by rw [← h], fun hne => ?_⟩
      exact hne.1 _ rfl
  | ok resp =>
    obtain ⟨stErr, body⟩ := resp
    cases stErr with
    | some t =>
      cases body with
      | ok j =>
        simp [publish_url_google, get_access_token, googleTryBody, googleHttpHandler] at h
        exact Or.inr ⟨by rw [← h], _, by rw [← h], fun _ => dumps_ne_empty j⟩
      | error t2 =>
        simp [publish_url_google, get_access_token, googleTryBody, googleHttpHandler, PyExc.text] at h
        refine Or.inr ⟨by rw [← h], _, by rw [← h], fun hne => ?_⟩
        exact (hne.2 _ rfl).1 _ rfl
    | none =>
      cases body with
      | error t =>
        simp [publish_url_google, get_access_token, googleTryBody, PyExc.text] at h
        refine Or.inr ⟨by rw [← h], _, by rw [← h], fun hne => ?_⟩
        exact (hne.2 _ rfl).2 _ rfl
      | ok data =>
        cases data with
        | obj fs =>
          cases hm : fs.lookup "urlNotificationMetadata" with
          | none =>
            simp [publish_url_google, get_access_token, googleTryBody, pyIn, pySubscript, hm] at h
            exact Or.inr ⟨by rw [← h], _, by rw [← h], fun _ => by decide⟩
          | some md =>
            cases md with
            | obj mfs =>
              cases hlu : mfs.lookup "latestUpdate" with
              | none =>
                simp [publish_url_google, get_access_token, googleTryBody, pyIn, pySubscript, hm, hlu] at h
                exact Or.inl h.symm
              | some lu =>
                cases lu with
                | obj lfs =>
                  cases hty : lfs.lookup "type" with
                  | none =>
                    simp [publish_url_google, get_access_token, googleTryBody, pyIn, pySubscript,
                          hm, hlu, hty] at h
                    exact Or.inl h.symm
                  | some tv =>
                    by_cases he : tv.eqStr action
                    · simp [publish_url_google, get_access_token, googleTryBody, pyIn, pySubscript,
                            hm, hlu, hty, he] at h
                      exact Or.inl h.symm
                    · simp [publish_url_google, get_access_token, googleTryBody, pyIn, pySubscript,
                            hm, hlu, hty, he] at h
                      refine Or.inr ⟨by rw [← h], _, by rw [← h], fun _ => ?_⟩
                      exact ne_empty_of_length_pos (length_append_pos_left _
                        (length_append_pos_left _ (length_append_pos_left _ (by decide))))
                | str s2 =>
                  by_cases hs : isSubstringOf "type" s2
                  · simp [publish_url_google, get_access_token, googleTryBody, pyIn, pySubscript,
                          hm, hlu, hs, PyExc.text] at h
                    exact Or.inr ⟨by rw [← h], _, by rw [← h], fun _ => by decide⟩
                  · simp [publish_url_google, get_access_token, googleTryBody, pyIn, pySubscript,
                          hm, hlu, hs] at h
                    exact Or.inl h.symm
                | arr xs =>
                  by_cases hs : xs.any (fun x => x.eqStr "type")
                  · simp [publish_url_google, get_access_token, googleTryBody, pyIn, pySubscript,
                          hm, hlu, hs, PyExc.text] at h
                    exact Or.inr ⟨by rw [← h], _, by rw [← h], fun _ => by decide⟩
                  · simp [publish_url_google, get_access_token, googleTryBody, pyIn, pySubscript,
                          hm, hlu, hs] at h
                    exact Or.inl h.symm
                | null =>
                  simp [publish_url_google, get_access_token, googleTryBody, pyIn, pySubscript,
                        hm, hlu, PyExc.text] at h
                  exact Or.inr ⟨by rw [← h], _, by rw [← h], fun _ => by decide⟩
                | bool b =>
                  simp [publish_url_google, get_access_token, googleTryBody, pyIn, pySubscript,
                        hm, hlu, PyExc.text] at h
                  exact Or.inr ⟨by rw [← h], _, by rw [← h], fun _ => by decide⟩
                | num n =>
                  simp [publish_url_google, get_access_token, googleTryBody, pyIn, pySubscript,
                        hm, hlu, PyExc.text] at h
                  exact Or.inr ⟨by rw [← h], _, by rw [← h], fun _ => by decide⟩
            | str s =>
              by_cases hs : isSubstringOf "latestUpdate" s
              · simp [publish_url_google, get_access_token, googleTryBody, pyIn, pySubscript,
                      hm, hs, PyExc.text] at h
                exact Or.inr ⟨by rw [← h], _, by rw [← h], fun _ => by decide⟩
              · simp [publish_url_google, get_access_token, googleTryBody, pyIn, pySubscript,
                      hm, hs] at h
                exact Or.inl h.symm
            | arr xs =>
              by_cases hs : xs.any (fun x => x.eqStr "latestUpdate")
              · simp [publish_url_google, get_access_token, googleTryBody, pyIn, pySubscript,
                      hm, hs, PyExc.text] at h
                exact Or.inr ⟨by rw [← h], _, by rw [← h], fun _ => by decide⟩
              · simp [publish_url_google, get_access_token, googleTryBody, pyIn, pySubscript,
                      hm, hs] at h
                exact Or.inl h.symm
            | null =>
              simp [publish_url_google, get_access_token, googleTryBody, pyIn, pySubscript,
                    hm, PyExc.text] at h
              exact Or.inr ⟨by rw [← h], _, by rw [← h], fun _ => by decide⟩
            | bool b =>
              simp [publish_url_google, get_access_token, googleTryBody, pyIn, pySubscript,
                    hm, PyExc.text] at h
              exact Or.inr ⟨by rw [← h], _, by rw [← h], fun _ => by decide⟩
            | num n =>
              simp [publish_url_google, get_access_token, googleTryBody, pyIn, pySubscript,
                    hm, PyExc.text] at h
              exact Or.inr ⟨by rw [← h], _, by rw [← h], fun _ => by decide⟩
        | str s =>
          by_cases hs : isSubstringOf "urlNotificationMetadata" s
          · simp [publish_url_google, get_access_token, googleTryBody, pyIn, pySubscript,
                  hs, PyExc.text] at h
            exact Or.inr ⟨by rw [← h], _, by rw [← h], fun _ => by decide⟩
          · simp [publish_url_google, get_access_token, googleTryBody, pyIn, hs] at h
            exact Or.inr ⟨by rw [← h], _, by rw [← h], fun _ => by decide⟩
        | arr xs =>
          by_cases hs : xs.any (fun x => x.eqStr "urlNotificationMetadata")
          · simp [publish_url_google, get_access_token, googleTryBody, pyIn, pySubscript,
                  hs, PyExc.text] at h
            exact Or.inr ⟨by rw [← h], _, by rw [← h], fun _ => by decide⟩
          · simp [publish_url_google, get_access_token, googleTryBody, pyIn, hs] at h
            exact Or.inr ⟨by rw [← h], _, by rw [← h], fun _ => by decide⟩
        | null =>
          simp [publish_url_google, get_access_token, googleTryBody, pyIn, PyExc.text] at h
          exact Or.inr ⟨by rw [← h], _, by rw [← h], fun _ => by decide⟩
        | bool b =>
          simp [publish_url_google, get_access_token, googleTryBody, pyIn, PyExc.text] at h
          exact Or.inr ⟨by rw [← h], _, by rw [← h], fun _ => by decide⟩
        | num n =>
          simp [publish_url_google, get_access_token, googleTryBody, pyIn, PyExc.text] at h
          exact Or.inr ⟨by rw [← h], _, by rw [← h], fun _ => by decide⟩

/-- Claim C1: for every Primary (Yandex) submission the outcome is
classified in order: a transport or HTTP failure yields Failure with the
serialized error body if retrievable, else the exception text; otherwise
a body with an `error` field yields Failure carrying that field's content
(regardless of any other field, including a task identifier); otherwise a
body with a `task_id` field yields Success; otherwise
success-without-confirmation. -/
theorem c1_yandex_classification (env : YandexEnv) :
    (∀ e, env.post = .error e →
      send_reindex_yandex env = .ok ("неуспешно", some e.text)) ∧
    (∀ resp t j, env.post = .ok resp → resp.statusError = some t → resp.jsonBody = .ok j →
      send_reindex_yandex env = .ok ("неуспешно", some (Json.dumps j))) ∧
    (∀ resp t et, env.post = .ok resp → resp.statusError = some t → resp.jsonBody = .error et →
      send_reindex_yandex env = .ok ("неуспешно", some t)) ∧
    (∀ resp fs v, env.post = .ok resp → resp.statusError = none →
      resp.jsonBody = .ok (.obj fs) → fs.lookup "error" = some v →
      send_reindex_yandex env = .ok ("неуспешно", some ("Ошибка API: " ++ v.pystr))) ∧
    (∀ resp fs v, env.post = .ok resp → resp.statusError = none →
      resp.jsonBody = .ok (.obj fs) → fs.lookup "error" = none → fs.lookup "task_id" = some v →
      send_reindex_yandex env = .ok ("успешно", none)) ∧
    (∀ resp fs, env.post = .ok resp → resp.statusError = none →
      resp.jsonBody = .ok (.obj fs) → fs.lookup "error" = none → fs.lookup "task_id" = none →
      send_reindex_yandex env = .ok ("успешно (без task_id)", none)) := by
  refine ⟨?_, ?_, ?_, ?_, ?_, ?_⟩
  · intro e hp
    cases e <;> simp [send_reindex_yandex, yandexTryBody, yandexHttpHandler, hp, PyExc.text]
  · intro resp t j hp hs hj
    simp [send_reindex_yandex, yandexTryBody, yandexHttpHandler, hp, hs, hj]
  · intro resp t et hp hs hj
    simp [send_reindex_yandex, yandexTryBody, yandexHttpHandler, hp, hs, hj, PyExc.text]
  · intro resp fs v hp hs hj hl
    simp [send_reindex_yandex, yandexTryBody, pyIn, pySubscript, hp, hs, hj, hl]
  · intro resp fs v hp hs hj hl hl2
    simp [send_reindex_yandex, yandexTryBody, pyIn, pySubscript, hp, hs, hj, hl, hl2]
  · intro resp fs hp hs hj hl hl2
    simp [send_reindex_yandex, yandexTryBody, pyIn, pySubscript, hp, hs, hj, hl, hl2]

/-- Witness for C1: each classification case evaluated at a concrete
exchange; the error-field case carries a task identifier too, showing
the `error` field wins. -/
theorem c1_yandex_classification_witness :
    send_reindex_yandex ⟨.error (.other "boom")⟩ = .ok ("неуспешно", some "boom") ∧
    send_reindex_yandex ⟨.ok ⟨some "500 Server Error", .ok (.obj [("message", .str "oops")])⟩⟩
      = .ok ("неуспешно", some "\x7b\"message\": \"oops\"\x7d") ∧
    send_reindex_yandex ⟨.ok ⟨some "500 Server Error", .error "not json"⟩⟩
      = .ok ("неуспешно", some "500 Server Error") ∧
    send_reindex_yandex ⟨.ok ⟨none, .ok (.obj [("error", .str "bad"), ("task_id", .str "t1")])⟩⟩
      = .ok ("неуспешно", some "Ошибка API: bad") ∧
    send_reindex_yandex ⟨.ok ⟨none, .ok (.obj [("task_id", .str "t1")])⟩⟩
      = .ok ("успешно", none) ∧
    send_reindex_yandex ⟨.ok ⟨none, .ok (.obj [("status", .str "queued")])⟩⟩
      = .ok ("успешно (без task_id)", none) := by
  refine ⟨?_, ?_, ?_, ?_, ?_, ?_⟩
  · exact (c1_yandex_classification ⟨.error (.other "boom")⟩).1 (.other "boom") rfl
  · have h := (c1_yandex_classification
      ⟨.ok ⟨some "500 Server Error", .ok (.obj [("message", .str "oops")])⟩⟩).2.1
      ⟨some "500 Server Error", .ok (.obj [("message", .str "oops")])⟩
      "500 Server Error" (.obj [("message", .str "oops")]) rfl rfl rfl
    rw [h]; decide
  · exact (c1_yandex_classification ⟨.ok ⟨some "500 Server Error", .error "not json"⟩⟩).2.2.1
      ⟨some "500 Server Error", .error "not json"⟩ "500 Server Error" "not json" rfl rfl rfl
  · have h := (c1_yandex_classification
      ⟨.ok ⟨none, .ok (.obj [("error", .str "bad"), ("task_id", .str "t1")])⟩⟩).2.2.2.1
      ⟨none, .ok (.obj [("error", .str "bad"), ("task_id", .str "t1")])⟩
      [("error", .str "bad"), ("task_id", .str "t1")] (.str "bad") rfl rfl rfl rfl
    rw [h]; decide
  · exact (c1_yandex_classification ⟨.ok ⟨none, .ok (.obj [("task_id", .str "t1")])⟩⟩).2.2.2.2.1
      ⟨none, .ok (.obj [("task_id", .str "t1")])⟩ [("task_id", .str "t1")] (.str "t1")
      rfl rfl rfl rfl rfl
  · exact (c1_yandex_classification ⟨.ok ⟨none, .ok (.obj [("status", .str "queued")])⟩⟩).2.2.2.2.2
      ⟨none, .ok (.obj [("status", .str "queued")])⟩ [("status", .str "queued")]
      rfl rfl rfl rfl rfl

/-- Claim C2: for every Secondary (Google) submission with the bearer
token acquired, the outcome is classified: transport/HTTP failure yields
Failure (serialized error body if retrievable else exception text); a
body without the `urlNotificationMetadata` envelope yields Failure with
the generic unexpected-shape detail; an envelope whose latest update
type differs from the requested action yields Failure naming expected
and actual; a matching type, a missing `latestUpdate`, or a
`latestUpdate` without `type` yields Success. -/
theorem c2_google_classification (action : String) (env : GoogleEnv) (tok : String)
    (htok : env.token = .ok tok) :
    (∀ e, env.post = .error e →
      publish_url_google action env = .ok ("неуспешно", some e.text)) ∧
    (∀ resp t j, env.post = .ok resp → resp.statusError = some t → resp.jsonBody = .ok j →
      publish_url_google action env = .ok ("неуспешно", some (Json.dumps j))) ∧
    (∀ resp t et, env.post = .ok resp → resp.statusError = some t → resp.jsonBody = .error et →
      publish_url_google action env = .ok ("неуспешно", some t)) ∧
    (∀ resp fs, env.post = .ok resp → resp.statusError = none →
      resp.jsonBody = .ok (.obj fs) → fs.lookup "urlNotificationMetadata" = none →
      publish_url_google action env
        = .ok ("неуспешно", some "Неожиданный формат ответа от Google API")) ∧
    (∀ resp fs mfs lfs tv, env.post = .ok resp → resp.statusError = none →
      resp.jsonBody = .ok (.obj fs) →
      fs.lookup "urlNotificationMetadata" = some (.obj mfs) →
      mfs.lookup "latestUpdate" = some (.obj lfs) →
      lfs.lookup "type" = some tv → tv.eqStr action = false →
      publish_url_google action env
        = .ok ("неуспешно", some ("Ожидался тип " ++ action ++ ", получен " ++ tv.pystr))) ∧
    (∀ resp fs mfs lfs tv, env.post = .ok resp → resp.statusError = none →
      resp.jsonBody = .ok (.obj fs) →
      fs.lookup "urlNotificationMetadata" = some (.obj mfs) →
      mfs.lookup "latestUpdate" = some (.obj lfs) →
      lfs.lookup "type" = some tv → tv.eqStr action = true →
      publish_url_google action env = .ok ("успешно", none)) ∧
    (∀ resp fs mfs, env.post = .ok resp → resp.statusError = none →
      resp.jsonBody = .ok (.obj fs) →
      fs.lookup "urlNotificationMetadata" = some (.obj mfs) →
      mfs.lookup "latestUpdate" = none →
      publish_url_google action env = .ok ("успешно", none)) ∧
    (∀ resp fs mfs lfs, env.post = .ok resp → resp.statusError = none →
      resp.jsonBody = .ok (.obj fs) →
      fs.lookup "urlNotificationMetadata" = some (.obj mfs) →
      mfs.lookup "latestUpdate" = some (.obj lfs) →
      lfs.lookup "type" = none →
      publish_url_google action env = .ok ("успешно", none)) := by
  refine ⟨?_, ?_, ?_, ?_, ?_, ?_, ?_, ?_⟩
  · intro e hp
    cases e <;>
      simp [publish_url_google, get_access_token, googleTryBody, googleHttpHandler,
            htok, hp, PyExc.text]
  · intro resp t j hp hs hj
    simp [publish_url_google, get_access_token, googleTryBody, googleHttpHandler,
          htok, hp, hs, hj]
  · intro resp t et hp hs hj
    simp [publish_url_google, get_access_token, googleTryBody, googleHttpHandler,
          htok, hp, hs, hj, PyExc.text]
  · intro resp fs hp hs hj hm
    simp [publish_url_google, get_access_token, googleTryBody, pyIn, pySubscript,
          htok, hp, hs, hj, hm]
  · intro resp fs mfs lfs tv hp hs hj hm hlu hty he
    simp [publish_url_google, get_access_token, googleTryBody, pyIn, pySubscript,
          htok, hp, hs, hj, hm, hlu, hty, he]
  · intro resp fs mfs lfs tv hp hs hj hm hlu hty he
    simp [publish_url_google, get_access_token, googleTryBody, pyIn, pySubscript,
          htok, hp, hs, hj, hm, hlu, hty, he]
  · intro resp fs mfs hp hs hj hm hlu
    simp [publish_url_google, get_access_token, googleTryBody, pyIn, pySubscript,
          htok, hp, hs, hj, hm, hlu]
  · intro resp fs mfs lfs hp hs hj hm hlu hty
    simp [publish_url_google, get_access_token, googleTryBody, pyIn, pySubscript,
          htok, hp, hs, hj, hm, hlu, hty]

/-- Witness for C2: each classification case evaluated at a concrete
exchange, with the requested action `URL_UPDATED`; the mismatch case
shows both the expected and the actual type in the detail. -/
theorem c2_google_classification_witness :
    publish_url_google "URL_UPDATED" ⟨.ok "tok", .error (.other "conn reset")⟩
      = .ok ("неуспешно", some "conn reset") ∧
    publish_url_google "URL_UPDATED" ⟨.ok "tok", .ok ⟨some "403 Forbidden", .ok (.obj [("message", .str "denied")])⟩⟩
      = .ok ("неуспешно", some "\x7b\"message\": \"denied\"\x7d") ∧
    publish_url_google "URL_UPDATED" ⟨.ok "tok", .ok ⟨some "403 Forbidden", .error "not json"⟩⟩
      = .ok ("неуспешно", some "403 Forbidden") ∧
    publish_url_google "URL_UPDATED" ⟨.ok "tok", .ok ⟨none, .ok (.obj [("kind", .str "other")])⟩⟩
      = .ok ("неуспешно", some "Неожиданный формат ответа от Google API") ∧
    publish_url_google "URL_UPDATED" ⟨.ok "tok", .ok ⟨none, .ok (.obj [("urlNotificationMetadata",
        .obj [("latestUpdate", .obj [("type", .str "URL_DELETED")])])])⟩⟩
      = .ok ("неуспешно", some "Ожидался тип URL_UPDATED, получен URL_DELETED") ∧
    publish_url_google "URL_UPDATED" ⟨.ok "tok", .ok ⟨none, .ok (.obj [("urlNotificationMetadata",
        .obj [("latestUpdate", .obj [("type", .str "URL_UPDATED")])])])⟩⟩
      = .ok ("успешно", none) ∧
    publish_url_google "URL_UPDATED" ⟨.ok "tok", .ok ⟨none, .ok (.obj [("urlNotificationMetadata",
        .obj [("url", .str "https://a.com/")])])⟩⟩
      = .ok ("успешно", none) ∧
    publish_url_google "URL_UPDATED" ⟨.ok "tok", .ok ⟨none, .ok (.obj [("urlNotificationMetadata",
        .obj [("latestUpdate", .obj [("notifyTime", .str "now")])])])⟩⟩
      = .ok ("успешно", none) := by
  refine ⟨?_, ?_, ?_, ?_, ?_, ?_, ?_, ?_⟩
  · exact (c2_google_classification "URL_UPDATED" ⟨.ok "tok", .error (.other "conn reset")⟩
      "tok" rfl).1 (.other "conn reset") rfl
  · have h := (c2_google_classification "URL_UPDATED"
      ⟨.ok "tok", .ok ⟨some "403 Forbidden", .ok (.obj [("message", .str "denied")])⟩⟩
      "tok" rfl).2.1 ⟨some "403 Forbidden", .ok (.obj [("message", .str "denied")])⟩
      "403 Forbidden" (.obj [("message", .str "denied")]) rfl rfl rfl
    rw [h]; decide
  · exact (c2_google_classification "URL_UPDATED"
      ⟨.ok "tok", .ok ⟨some "403 Forbidden", .error "not json"⟩⟩ "tok" rfl).2.2.1
      ⟨some "403 Forbidden", .error "not json"⟩ "403 Forbidden" "not json" rfl rfl rfl
  · exact (c2_google_classification "URL_UPDATED"
      ⟨.ok "tok", .ok ⟨none, .ok (.obj [("kind", .str "other")])⟩⟩ "tok" rfl).2.2.2.1
      ⟨none, .ok (.obj [("kind", .str "other")])⟩ [("kind", .str "other")] rfl rfl rfl rfl
  · have h := (c2_google_classification "URL_UPDATED"
      ⟨.ok "tok", .ok ⟨none, .ok (.obj [("urlNotificationMetadata",
        .obj [("latestUpdate", .obj [("type", .str "URL_DELETED")])])])⟩⟩ "tok" rfl).2.2.2.2.1
      ⟨none, .ok (.obj [("urlNotificationMetadata",
        .obj [("latestUpdate", .obj [("type", .str "URL_DELETED")])])])⟩
      [("urlNotificationMetadata", .obj [("latestUpdate", .obj [("type", .str "URL_DELETED")])])]
      [("latestUpdate", .obj [("type", .str "URL_DELETED")])]
      [("type", .str "URL_DELETED")] (.str "URL_DELETED") rfl rfl rfl rfl rfl rfl rfl
    rw [h]; decide
  · exact (c2_google_classification "URL_UPDATED"
      ⟨.ok "tok", .ok ⟨none, .ok (.obj [("urlNotificationMetadata",
        .obj [("latestUpdate", .obj [("type", .str "URL_UPDATED")])])])⟩⟩ "tok" rfl).2.2.2.2.2.1
      ⟨none, .ok (.obj [("urlNotificationMetadata",
        .obj [("latestUpdate", .obj [("type", .str "URL_UPDATED")])])])⟩
      [("urlNotificationMetadata", .obj [("latestUpdate", .obj [("type", .str "URL_UPDATED")])])]
      [("latestUpdate", .obj [("type", .str "URL_UPDATED")])]
      [("type", .str "URL_UPDATED")] (.str "URL_UPDATED") rfl rfl rfl rfl rfl rfl rfl
  · exact (c2_google_classification "URL_UPDATED"
      ⟨.ok "tok", .ok ⟨none, .ok (.obj [("urlNotificationMetadata",
        .obj [("url", .str "https://a.com/")])])⟩⟩ "tok" rfl).2.2.2.2.2.2.1
      ⟨none, .ok (.obj [("urlNotificationMetadata", .obj [("url", .str "https://a.com/")])])⟩
      [("urlNotificationMetadata", .obj [("url", .str "https://a.com/")])]
      [("url", .str "https://a.com/")] rfl rfl rfl rfl rfl
  · exact (c2_google_classification "URL_UPDATED"
      ⟨.ok "tok", .ok ⟨none, .ok (.obj [("urlNotificationMetadata",
        .obj [("latestUpdate", .obj [("notifyTime", .str "now")])])])⟩⟩ "tok" rfl).2.2.2.2.2.2.2
      ⟨none, .ok (.obj [("urlNotificationMetadata",
        .obj [("latestUpdate", .obj [("notifyTime", .str "now")])])])⟩
      [("urlNotificationMetadata", .obj [("latestUpdate", .obj [("notifyTime", .str "now")])])]
      [("latestUpdate", .obj [("notifyTime", .str "now")])]
      [("notifyTime", .str "now")] rfl rfl rfl rfl rfl rfl

/-- Claim C5: the Primary submitter never raises past its boundary —
for every environment (any transport error, HTTP status, or body) it
returns an outcome pair rather than propagating an exception. -/
theorem c5_yandex_never_raises (env : YandexEnv) :
    exceptOk (send_reindex_yandex env) = true := by
  obtain ⟨r, hr⟩ := sendYandexOk env
  rw [hr]; rfl

/-- Counterexample to claim C10 as stated: a transport failure whose
exception text is empty yields a Failure outcome whose errorDetail is
the empty string, so not every Failure carries a non-empty detail. -/
theorem c10_counterexample :
    ¬ (∀ env r, send_reindex_yandex env = .ok r →
        ((r.2 = none ↔ r.1 = "успешно" ∨ r.1 = "успешно (без task_id)") ∧
         (r.1 = "неуспешно" → ∃ s, r.2 = some s ∧ s ≠ ""))) := by
  intro hclaim
  obtain ⟨s, hs, hne⟩ :=
    (hclaim ⟨.error (.other "")⟩ ("неуспешно", some "") rfl).2 rfl
  cases hs
  exact hne rfl

/-- Claim C10, amended: for both submitters, a returned outcome has
errorDetail `none` exactly when its status is a success variant, and
every Failure outcome carries an errorDetail string — non-empty whenever
the exception texts of the exchange are non-empty (it can be empty when
a propagated exception text is itself empty). -/
theorem c10_outcome_invariant_amended :
    (∀ env r, send_reindex_yandex env = .ok r →
      ((r.2 = none ↔ r.1 = "успешно" ∨ r.1 = "успешно (без task_id)") ∧
       (r.1 = "неуспешно" → ∃ s, r.2 = some s ∧ (env.textsNonempty → s ≠ "")))) ∧
    (∀ action env r, publish_url_google action env = .ok r →
      ((r.2 = none ↔ r.1 = "успешно" ∨ r.1 = "успешно (без task_id)") ∧
       (r.1 = "неуспешно" → ∃ s, r.2 = some s ∧ (env.textsNonempty → s ≠ "")))) := by
  constructor
  · intro env r h
    rcases yandexShape env r h with h1 | h1 | ⟨h1, s, h2, h3⟩
    · subst h1
      exact ⟨iff_of_true rfl (Or.inl rfl), fun hc => absurd hc (by decide)⟩
    · subst h1
      exact ⟨iff_of_true rfl (Or.inr rfl), fun hc => absurd hc (by decide)⟩
    · obtain ⟨st, det⟩ := r
      simp only at h1 h2
      subst h1; subst h2
      refine ⟨?_, fun _ => ⟨s, rfl, h3⟩⟩
      dsimp only
      exact iff_of_false (by simp) (by decide)
  · intro action env r h
    rcases googleShape action env r h with h1 | ⟨h1, s, h2, h3⟩
    · subst h1
      exact ⟨iff_of_true rfl (Or.inl rfl), fun hc => absurd hc (by decide)⟩
    · obtain ⟨st, det⟩ := r
      simp only at h1 h2
      subst h1; subst h2
      refine ⟨?_, fun _ => ⟨s, rfl, h3⟩⟩
      dsimp only
      exact iff_of_false (by simp) (by decide)

/-- Witness for the amended C10: the invariant instantiated at one
concrete failing Yandex exchange and one concrete successful Google
exchange. -/
theorem c10_outcome_invariant_amended_witness :
    (((("неуспешно", some "boom") : Outcome).2 = none ↔
        (("неуспешно", some "boom") : Outcome).1 = "успешно" ∨
        (("неуспешно", some "boom") : Outcome).1 = "успешно (без task_id)") ∧
     ((("неуспешно", some "boom") : Outcome).1 = "неуспешно" →
        ∃ s, (("неуспешно", some "boom") : Outcome).2 = some s ∧
          (YandexEnv.textsNonempty ⟨.error (.other "boom")⟩ → s ≠ ""))) ∧
    (((("успешно", none) : Outcome).2 = none ↔
        (("успешно", none) : Outcome).1 = "успешно" ∨
        (("успешно", none) : Outcome).1 = "успешно (без task_id)") ∧
     ((("успешно", none) : Outcome).1 = "неуспешно" →
        ∃ s, (("успешно", none) : Outcome).2 = some s ∧
          (GoogleEnv.textsNonempty googleEnvMatch → s ≠ ""))) := by
  constructor
  · exact c10_outcome_invariant_amended.1 ⟨.error (.other "boom")⟩ ("неуспешно", some "boom") rfl
  · exact c10_outcome_invariant_amended.2 "URL_UPDATED" googleEnvMatch ("успешно", none) rfl

lemma runLoop_ok (yOf : String → YandexEnv) (gOf : String → GoogleEnv) (rows : List String)
    (htok : ∀ raw ∈ rows, pyTrim raw ≠ "" → ∃ tok, (gOf (pyTrim raw)).token = .ok tok) :
    runLoop yOf gOf rows =
      (rows.flatMap urlEvents,
       .ok (rows.filterMap (fun raw => if pyTrim raw = "" then none
              else some (expectedRow yOf gOf (pyTrim raw))),
            rows.length,
            (rows.filter (fun raw => !(pyTrim raw == ""))).length)) := by
  induction rows with
  | nil => simp [runLoop]
  | cons raw rest ih =>
    have hrest : ∀ r ∈ rest, pyTrim r ≠ "" → ∃ tok, (gOf (pyTrim r)).token = .ok tok :=
      fun r hr => htok r (List.mem_cons_of_mem _ hr)
    by_cases hne : pyTrim raw = ""
    · simp [runLoop, hne, ih hrest, urlEvents]
    · obtain ⟨oy, hoy⟩ := sendYandexOk (yOf (pyTrim raw))
      obtain ⟨tok, htk⟩ := htok raw (List.mem_cons_self _ _) hne
      obtain ⟨og, hog⟩ := publishOkOfToken "URL_UPDATED" (gOf (pyTrim raw)) tok htk
      simp [runLoop, hne, hoy, hog, ih hrest, urlEvents, expectedRow, outcomeOf]

lemma runLoop_token_fail (yOf : String → YandexEnv) (gOf : String → GoogleEnv)
    (rs1 : List String) (raw : String) (rs2 : List String) (e : PyExc)
    (h1 : ∀ r ∈ rs1, pyTrim r ≠ "" → ∃ tok, (gOf (pyTrim r)).token = .ok tok)
    (hne : pyTrim raw ≠ "") (he : (gOf (pyTrim raw)).token = .error e) :
    runLoop yOf gOf (rs1 ++ raw :: rs2) =
      (rs1.flatMap urlEvents ++ [.yandexCall (pyTrim raw), .googleCall (pyTrim raw)],
       .error e) := by
  induction rs1 with
  | nil =>
    obtain ⟨oy, hoy⟩ := sendYandexOk (yOf (pyTrim raw))
    have hp := publishTokenError "URL_UPDATED" (gOf (pyTrim raw)) e he
    simp [runLoop, hne, hoy, hp]
  | cons r0 rest ih =>
    have hrest : ∀ r ∈ rest, pyTrim r ≠ "" → ∃ tok, (gOf (pyTrim r)).token = .ok tok :=
      fun r hr => h1 r (List.mem_cons_of_mem _ hr)
    have ihh := ih hrest
    by_cases h0 : pyTrim r0 = ""
    · simp [runLoop, h0, ihh, urlEvents]
    · obtain ⟨oy, hoy⟩ := sendYandexOk (yOf (pyTrim r0))
      obtain ⟨tok, htk⟩ := h1 r0 (List.mem_cons_self _ _) h0
      obtain ⟨og, hog⟩ := publishOkOfToken "URL_UPDATED" (gOf (pyTrim r0)) tok htk
      simp [runLoop, h0, hoy, hog, ihh, urlEvents]

lemma resultRows_map_url (yOf : String → YandexEnv) (gOf : String → GoogleEnv)
    (rows : List String) :
    ((rows.filterMap (fun raw => if pyTrim raw = "" then none
        else some (expectedRow yOf gOf (pyTrim raw)))).map ResultRow.url)
      = (rows.map pyTrim).filter (fun u => !(u == "")) := by
  induction rows with
  | nil => simp
  | cons raw rest ih =>
    by_cases hne : pyTrim raw = ""
    · simp [hne, ih]
    · simp [hne, ih, show (expectedRow yOf gOf (pyTrim raw)).url = pyTrim raw from rfl]

lemma resultRows_length (yOf : String → YandexEnv) (gOf : String → GoogleEnv)
    (rows : List String) :
    (rows.filterMap (fun raw => if pyTrim raw = "" then none
        else some (expectedRow yOf gOf (pyTrim raw)))).length
      = (rows.filter (fun raw => !(pyTrim raw == ""))).length := by
  induction rows with
  | nil => simp
  | cons raw rest ih =>
    by_cases hne : pyTrim raw = ""
    · simp [hne, ih]
    · simp [hne, ih]

lemma filter_length_split (rows : List String) :
    (rows.filter (fun raw => pyTrim raw == "")).length
      + (rows.filter (fun raw => !(pyTrim raw == ""))).length = rows.length := by
  induction rows with
  | nil => simp
  | cons raw rest ih =>
    by_cases hne : pyTrim raw = ""
    · simp only [List.filter_cons, hne, beq_self_eq_true, if_true, Bool.not_true,
        Bool.false_eq_true, if_false, List.length_cons]
      omega
    · have hb : (pyTrim raw == "") = false := by simpa using hne
      simp only [List.filter_cons, hb, Bool.not_false, Bool.false_eq_true, if_false, if_true,
        List.length_cons]
      omega

lemma process_urls_ok (env : ProcEnv)
    (hh : ∃ h, build_yandex_host_id env.siteUrl = .ok h)
    (hu : ∃ u, get_yandex_user_id env.userIdEnv = .ok u)
    (hex : env.inputExists = true)
    (hcol : (env.input.fieldnames.map stripName).contains "URL" = true)
    (htok : ∀ raw ∈ env.input.rows, pyTrim raw ≠ "" →
      ∃ tok, (env.googleOf (pyTrim raw)).token = .ok tok) :
    process_urls env =
      ⟨[.resolveHostId, .resolveUserId, .checkInputExists, .openInput]
          ++ env.input.rows.flatMap urlEvents ++ [.writeOutput],
       some (env.input.rows.filterMap (fun raw => if pyTrim raw = "" then none
          else some (expectedRow env.yandexOf env.googleOf (pyTrim raw)))),
       env.input.rows.length,
       (env.input.rows.filter (fun raw => !(pyTrim raw == ""))).length⟩ := by
  obtain ⟨hid, hbh⟩ := hh
  obtain ⟨uid, hbu⟩ := hu
  have hl := runLoop_ok env.yandexOf env.googleOf env.input.rows htok
  have hcol2 : ∃ a ∈ env.input.fieldnames, stripName a = "URL" := by simpa using hcol
  simp [process_urls, hbh, hbu, hex, hcol2, hl]

/-- Claim C3: with identity resolved, the input present, a `URL` column
found and the submitters returning (token acquired for every non-empty
URL), the loop writes exactly one result row per non-empty-after-trim
URL, none for blank URLs, in input order; skipped plus processed rows
equal the total row count. -/
theorem c3_row_accounting (env : ProcEnv)
    (hh : ∃ h, build_yandex_host_id env.siteUrl = .ok h)
    (hu : ∃ u, get_yandex_user_id env.userIdEnv = .ok u)
    (hex : env.inputExists = true)
    (hcol : (env.input.fieldnames.map stripName).contains "URL" = true)
    (htok : ∀ raw ∈ env.input.rows, pyTrim raw ≠ "" →
      ∃ tok, (env.googleOf (pyTrim raw)).token = .ok tok) :
    ∃ outRows, (process_urls env).outputWritten = some outRows ∧
      outRows.map ResultRow.url = (env.input.rows.map pyTrim).filter (fun u => !(u == "")) ∧
      outRows.length = (env.input.rows.filter (fun raw => !(pyTrim raw == ""))).length ∧
      (process_urls env).totalRows = env.input.rows.length ∧
      (process_urls env).processedRows = outRows.length ∧
      (env.input.rows.filter (fun raw => pyTrim raw == "")).length
          + (process_urls env).processedRows = (process_urls env).totalRows := by
  rw [process_urls_ok env hh hu hex hcol htok]
  refine ⟨_, rfl, resultRows_map_url _ _ _, resultRows_length _ _ _, rfl,
    (resultRows_length _ _ _).symm, filter_length_split _⟩

/-- Witness for C3, end-to-end scenario 1: three rows with a blank
second row give two result rows, for the first and third URL, in
order. -/
theorem c3_row_accounting_witness :
    ∃ outRows, (process_urls envScenario1).outputWritten = some outRows ∧
      outRows.map ResultRow.url = ["https://a.com/", "https://b.com/"] ∧
      (process_urls envScenario1).totalRows = 3 ∧
      (process_urls envScenario1).processedRows = 2 := by
  obtain ⟨outRows, h1, h2, h3, h4, h5, h6⟩ := c3_row_accounting envScenario1
    ⟨"https:example.com:443", by decide⟩ ⟨.num 1, rfl⟩ rfl (by decide)
    (fun raw _ _ => ⟨"tok", rfl⟩)
  refine ⟨outRows, h1, by rw [h2]; decide, by rw [h4]; decide, ?_⟩
  rw [h5, h3]; decide

/-- Claim C9: under the same conditions, the run's trace calls the
Primary submitter then, immediately after and unconditionally — whatever
the Primary outcome — the Secondary submitter for every processed URL,
and the written row records both outcomes. -/
theorem c9_primary_then_secondary (env : ProcEnv)
    (hh : ∃ h, build_yandex_host_id env.siteUrl = .ok h)
    (hu : ∃ u, get_yandex_user_id env.userIdEnv = .ok u)
    (hex : env.inputExists = true)
    (hcol : (env.input.fieldnames.map stripName).contains "URL" = true)
    (htok : ∀ raw ∈ env.input.rows, pyTrim raw ≠ "" →
      ∃ tok, (env.googleOf (pyTrim raw)).token = .ok tok) :
    (process_urls env).trace =
      [.resolveHostId, .resolveUserId, .checkInputExists, .openInput]
        ++ env.input.rows.flatMap urlEvents ++ [.writeOutput] ∧
    (process_urls env).outputWritten =
      some (env.input.rows.filterMap (fun raw => if pyTrim raw = "" then none
        else some (expectedRow env.yandexOf env.googleOf (pyTrim raw)))) := by
  rw [process_urls_ok env hh hu hex hcol htok]
  exact ⟨rfl, rfl⟩

/-- Witness for C9, end-to-end scenario 2: the Primary submission fails
with HTTP 500 and the Secondary is still called right after it; the
recorded row carries Failure with detail for Primary and Success for
Secondary. -/
theorem c9_primary_then_secondary_witness :
    (process_urls envScenario2).trace =
      [.resolveHostId, .resolveUserId, .checkInputExists, .openInput,
       .yandexCall "https://a.com/", .googleCall "https://a.com/", .writeOutput] ∧
    (process_urls envScenario2).outputWritten =
      some [⟨"https://a.com/", "неуспешно", "500 Server Error", "успешно", ""⟩] := by
  obtain ⟨h1, h2⟩ := c9_primary_then_secondary envScenario2
    ⟨"https:example.com:443", by decide⟩ ⟨.num 1, rfl⟩ rfl (by decide)
    (fun raw _ _ => ⟨"tok", rfl⟩)
  exact ⟨by rw [h1]; decide, by rw [h2]; decide⟩

/-- Claim C7: when the stripped header names contain no `URL` column the
run aborts: no submission happens, the output file is not written, and a
pre-existing output file keeps its previous content. -/
theorem c7_missing_url_column (env : ProcEnv) (prev : Option (List ResultRow))
    (hcol : (env.input.fieldnames.map stripName).contains "URL" = false) :
    (process_urls env).outputWritten = none ∧
    outputFileAfter prev (process_urls env) = prev ∧
    (∀ u, Event.yandexCall u ∉ (process_urls env).trace) ∧
    Event.writeOutput ∉ (process_urls env).trace := by
  have hres : (process_urls env).outputWritten = none ∧
      ((process_urls env).trace = [.resolveHostId] ∨
       (process_urls env).trace = [.resolveHostId, .resolveUserId] ∨
       (process_urls env).trace = [.resolveHostId, .resolveUserId, .checkInputExists] ∨
       (process_urls env).trace
         = [.resolveHostId, .resolveUserId, .checkInputExists, .openInput]) := by
    cases hbh : build_yandex_host_id env.siteUrl with
    | error e => simp [process_urls, hbh]
    | ok h =>
      cases hbu : get_yandex_user_id env.userIdEnv with
      | error e => simp [process_urls, hbh, hbu]
      | ok u =>
        cases hex : env.inputExists
        · simp [process_urls, hbh, hbu, hex]
        · have hcol2 : ¬ ∃ a ∈ env.input.fieldnames, stripName a = "URL" := by
            simpa using hcol
          simp [process_urls, hbh, hbu, hex, hcol2]
  obtain ⟨h1, h2⟩ := hres
  refine ⟨h1, by simp [outputFileAfter, h1], ?_, ?_⟩
  · intro u
    rcases h2 with h | h | h | h <;> simp [h]
  · rcases h2 with h | h | h | h <;> simp [h]

/-- Witness for C7: a table whose headers are a BOM-and-space-laden
name and `Url ` (not `URL` after stripping) aborts the run and leaves
the pre-existing output content in place. -/
theorem c7_missing_url_column_witness :
    (process_urls envNoUrlColumn).outputWritten = none ∧
    outputFileAfter prevOutput (process_urls envNoUrlColumn) = prevOutput ∧
    Event.writeOutput ∉ (process_urls envNoUrlColumn).trace := by
  obtain ⟨h1, h2, h3, h4⟩ := c7_missing_url_column envNoUrlColumn prevOutput (by decide)
  exact ⟨h1, h2, h4⟩

/-- Counterexample to claim C8 as stated: a run whose input file is
missing still performs the identity-resolution step (the `user-id`
network call appears in the trace) before aborting, so existence is not
validated before identity resolution. -/
theorem c8_counterexample :
    ¬ (∀ env : ProcEnv, env.inputExists = false →
        Event.resolveUserId ∉ (process_urls env).trace) := by
  intro hclaim
  exact hclaim envMissingInput rfl (by decide)

/-- Claim C8, amended: identity resolution runs first and the input-file
existence check second; with identity resolved and the input file
missing, the run aborts right after the existence check — before reading
the input or submitting anything — and writes no output. -/
theorem c8_identity_before_input_check (env : ProcEnv)
    (hh : ∃ h, build_yandex_host_id env.siteUrl = .ok h)
    (hu : ∃ u, get_yandex_user_id env.userIdEnv = .ok u)
    (hex : env.inputExists = false) :
    (process_urls env).trace = [.resolveHostId, .resolveUserId, .checkInputExists] ∧
    (process_urls env).outputWritten = none := by
  obtain ⟨h, hbh⟩ := hh
  obtain ⟨u, hbu⟩ := hu
  constructor <;> simp [process_urls, hbh, hbu, hex]

/-- Witness for the amended C8: a concrete run with a missing input file
ends after host-id derivation, the user-id call and the existence check,
with no output written. -/
theorem c8_identity_before_input_check_witness :
    (process_urls envMissingInput).trace
      = [.resolveHostId, .resolveUserId, .checkInputExists] ∧
    (process_urls envMissingInput).outputWritten = none :=
  c8_identity_before_input_check envMissingInput
    ⟨"https:example.com:443", by decide⟩ ⟨.num 1, rfl⟩ rfl

/-- Counterexample to claim C4 as stated: with the first URL's token
acquisition failing, the Secondary submitter raises instead of returning
a Failure outcome, the second URL is never processed, and no output is
written — the failure is not confined to the single submission. -/
theorem c4_counterexample :
    publish_url_google "URL_UPDATED" (envTokenFail.googleOf "https://a.com/")
      = .error (.other "refresh failed") ∧
    Event.yandexCall "https://b.com/" ∉ (process_urls envTokenFail).trace ∧
    (process_urls envTokenFail).outputWritten = none := by
  refine ⟨by decide, by decide, by decide⟩

/-- Claim C4, amended: a token-acquisition failure for one URL's
Secondary submission propagates out of `publish_url_google`; the
orchestrator's file-processing handler catches it and stops the run's
remaining work — no later URL is submitted and the output file is not
written (the rows gathered so far are discarded), though the process
itself survives. -/
theorem c4_token_failure_aborts (env : ProcEnv)
    (hh : ∃ h, build_yandex_host_id env.siteUrl = .ok h)
    (hu : ∃ u, get_yandex_user_id env.userIdEnv = .ok u)
    (hex : env.inputExists = true)
    (hcol : (env.input.fieldnames.map stripName).contains "URL" = true)
    (rs1 : List String) (raw : String) (rs2 : List String) (e : PyExc)
    (hsplit : env.input.rows = rs1 ++ raw :: rs2)
    (h1 : ∀ r ∈ rs1, pyTrim r ≠ "" → ∃ tok, (env.googleOf (pyTrim r)).token = .ok tok)
    (hne : pyTrim raw ≠ "") (he : (env.googleOf (pyTrim raw)).token = .error e) :
    publish_url_google "URL_UPDATED" (env.googleOf (pyTrim raw)) = .error e ∧
    (process_urls env).trace =
      [.resolveHostId, .resolveUserId, .checkInputExists, .openInput]
        ++ rs1.flatMap urlEvents ++ [.yandexCall (pyTrim raw), .googleCall (pyTrim raw)] ∧
    (process_urls env).outputWritten = none := by
  obtain ⟨h, hbh⟩ := hh
  obtain ⟨u, hbu⟩ := hu
  have hl := runLoop_token_fail env.yandexOf env.googleOf rs1 raw rs2 e h1 hne he
  rw [← hsplit] at hl
  have hcol2 : ∃ a ∈ env.input.fieldnames, stripName a = "URL" := by simpa using hcol
  refine ⟨publishTokenError _ _ _ he, ?_, ?_⟩ <;>
    simp [process_urls, hbh, hbu, hex, hcol2, hl]

/-- Witness for the amended C4: a concrete two-URL run whose first
Google submission hits a token failure ends right after that call, with
no output written. -/
theorem c4_token_failure_aborts_witness :
    publish_url_google "URL_UPDATED" (envTokenFail.googleOf (pyTrim "https://a.com/"))
      = .error (.other "refresh failed") ∧
    (process_urls envTokenFail).trace =
      [.resolveHostId, .resolveUserId, .checkInputExists, .openInput,
       .yandexCall "https://a.com/", .googleCall "https://a.com/"] ∧
    (process_urls envTokenFail).outputWritten = none := by
  obtain ⟨hp, ht, hw⟩ := c4_token_failure_aborts envTokenFail
    ⟨"https:example.com:443", by decide⟩ ⟨.num 1, rfl⟩ rfl (by decide)
    [] "https://a.com/" ["https://b.com/"] (.other "refresh failed") rfl
    (by simp) (by decide) (by decide)
  exact ⟨hp, by rw [ht]; decide, hw⟩

/-- Claim C6: a site URL parsing to a non-empty scheme and netloc gives
hostId `scheme:netloc:port` with port 443 for https and 80 otherwise;
an empty scheme or netloc makes hostId derivation fail with an error. -/
theorem c6_host_id (u s n : String) (hp : urlparse_scheme_netloc u = (s, n)) :
    (s ≠ "" → n ≠ "" → build_yandex_host_id u
        = .ok (s ++ ":" ++ n ++ ":" ++ (if s = "https" then "443" else "80"))) ∧
    ((s = "" ∨ n = "") → build_yandex_host_id u
        = .error (.valueError ("Некорректный URL сайта: " ++ u))) := by
  constructor
  · intro hs hn
    simp [build_yandex_host_id, hp, hs, hn]
  · intro hd
    rcases hd with hd | hd <;> simp [build_yandex_host_id, hp, hd]

/-- Witness for C6: `http://example.org` yields `http:example.org:80`
(port 80 because the scheme is not https), and a URL with no scheme
fails instead of producing a host id. -/
theorem c6_host_id_witness :
    build_yandex_host_id "http://example.org" = .ok "http:example.org:80" ∧
    build_yandex_host_id "example.org"
      = .error (.valueError "Некорректный URL сайта: example.org") := by
  constructor
  · have h := (c6_host_id "http://example.org" "http" "example.org" (by decide)).1
      (by decide) (by decide)
    rw [h]; decide
  · have h := (c6_host_id "example.org" "" "" (by decide)).2 (Or.inl rfl)
    rw [h]; decide
